import Mathlib

/-!
# Verification of the Tetris core (alrch/tetris_c)

Shallow embedding of the game's grid/figure engine (`backend.c`) and of the
state-machine handlers (`fsm.c`), together with proofs of the specified
properties.  Fields and figures are lists of lists of `Int` (C `int` cells);
positions are pairs of `Int`.  Each definition mirrors one C function and is
named after it.
-/

namespace Tetris

/-! ## Constants (from `defines.h`) -/

def ROWS_MAP : Nat := 20
def COLS_MAP : Nat := 10
def SIDE_OF_FIGURE_SQUARE : Nat := 4
def NUMBER_OF_FIGURES : Nat := 7
def MAX_LEVEL : Int := 10
def INITIAL_TIMEOUT : Int := 500
def SPEED_DECREMENT : Int := 30
def FIGURESTART_X : Int := ((COLS_MAP : Int) - (SIDE_OF_FIGURE_SQUARE : Int)) / 2
def FIGURESTART_Y : Int := 0
def NO_ERROR : Int := 0
def ERROR : Int := 1

/-! ## Data model -/

/-- A field or figure row: a list of C `int` cells. -/
abbrev Row := List Int

/-- The playfield: a list of rows (20 rows of 10 cells when well-formed). -/
abbrev Field := List Row

/-- A figure: 4x4 matrix of cells. -/
abbrev Matrix4 := List Row

/-- `FigurePos_t` from `backend.h`: integer offset of the figure's 4x4 box. -/
structure FigurePos where
  x : Int
  y : Int
deriving DecidableEq, Repr

/-- `TetrisState_t` from `fsm.h`. -/
inductive TetrisState where
  | START | SPAWN | MOVING | SHIFTING | ATTACHING | GAMEOVER | EXIT_ERROR
deriving DecidableEq, Repr

open TetrisState

/-- Read cell `(i, j)` of a figure matrix (row-major, default 0 like a zeroed
C allocation). -/
def figCell (m : Matrix4) (i j : Nat) : Int := (m.getD i []).getD j 0

/-- Read field cell at absolute coordinates `(y, x)`; callers guard bounds
first, exactly as the short-circuit `||` does in the C code. -/
def fieldCell (f : Field) (y x : Int) : Int := (f.getD y.toNat []).getD x.toNat 0

/-- An all-zero field row of `COLS_MAP` cells. -/
def zeroRow : Row := List.replicate COLS_MAP 0

/-- Every cell of the matrix is 0 or 1. -/
def cells01 (m : List Row) : Prop := ∀ r ∈ m, ∀ c ∈ r, c = 0 ∨ c = 1

/-! ## `check_collide` (backend.c:300-316)

The C function walks the 4x4 figure with an early-exit flag `rc`; a flag loop
over a finite range is `List.any`.  The bounds test guards the field access by
short-circuit `||`, mirrored by `fieldCell` only being relevant in-bounds. -/

def check_collide (figure : Matrix4) (pos : FigurePos) (field : Field) : Bool :=
  (List.range SIDE_OF_FIGURE_SQUARE).any fun i =>
    (List.range SIDE_OF_FIGURE_SQUARE).any fun j =>
      figCell figure i j == 1 &&
        (decide (pos.x + j < 0) || decide (pos.y + i < 0) ||
         decide (pos.x + j ≥ (COLS_MAP : Int)) || decide (pos.y + i ≥ (ROWS_MAP : Int)) ||
         fieldCell field (pos.y + i) (pos.x + j) == 1)

/-! ## `rotate_figure` (backend.c:339-347): `new[i][j] = old[j][3-i]`. -/

def rotate_figure (m : Matrix4) : Matrix4 :=
  (List.range SIDE_OF_FIGURE_SQUARE).map fun i =>
    (List.range SIDE_OF_FIGURE_SQUARE).map fun j =>
      figCell m j (SIDE_OF_FIGURE_SQUARE - i - 1)

/-! ## `figures_choice` (backend.c:372-385): the 7 canonical shapes. -/

def all_figures : List Matrix4 :=
  [[[0, 0, 0, 0], [1, 1, 1, 1], [0, 0, 0, 0], [0, 0, 0, 0]],
   [[0, 0, 0, 0], [0, 1, 1, 0], [0, 1, 1, 0], [0, 0, 0, 0]],
   [[0, 0, 0, 0], [1, 0, 0, 0], [1, 1, 1, 0], [0, 0, 0, 0]],
   [[0, 0, 0, 0], [0, 0, 1, 0], [1, 1, 1, 0], [0, 0, 0, 0]],
   [[0, 0, 0, 0], [1, 1, 0, 0], [0, 1, 1, 0], [0, 0, 0, 0]],
   [[0, 0, 0, 0], [0, 1, 1, 0], [1, 1, 0, 0], [0, 0, 0, 0]],
   [[0, 0, 0, 0], [0, 1, 0, 0], [1, 1, 1, 0], [0, 0, 0, 0]]]

def figures_choice (n : Nat) : Matrix4 := all_figures.getD n []

/-! ## `check_finished_row` / `shift_rows_down` / `destruction_of_rows`
(backend.c:258-292) -/

/-- backend.c:274-279: a row is finished iff every one of its `COLS_MAP`
cells equals 1 (early-exit flag loop). -/
def check_finished_row (row : Row) : Bool :=
  (List.range COLS_MAP).all fun j => row.getD j 0 == 1

/-- backend.c:286-292: rows `1..row` each receive the row above, row 0 is
zero-filled, rows below `row` are untouched. -/
def shift_rows_down (row : Nat) (field : Field) : Field :=
  zeroRow :: field.take row ++ field.drop (row + 1)

/-- The `for (i = 0; i < ROWS_MAP; i++)` loop of `destruction_of_rows`,
carried over the list of row indices still to visit; it reads the *current*
(already shifted) field at each index, exactly like the C loop. -/
def destructionGo (field : Field) : List Nat → Field × Nat
  | [] => (field, 0)
  | i :: rest =>
    if check_finished_row (field.getD i []) then
      let p := destructionGo (shift_rows_down i field) rest
      (p.1, p.2 + 1)
    else destructionGo field rest

/-- backend.c:258-267. Returns the updated field and the number of rows
destroyed. -/
def destruction_of_rows (field : Field) : Field × Nat :=
  destructionGo field (List.range ROWS_MAP)

/-! ## `recalculate_stats` (backend.c:323-333) -/

/-- The score/level/speed triple of `GameInfo_t` touched by
`recalculate_stats`. -/
structure Stats where
  score : Int
  level : Int
  speed : Int
deriving DecidableEq, Repr

def recalculate_stats (n_rows : Int) (s : Stats) : Stats :=
  if n_rows ≠ 0 then
    let score := s.score + (if n_rows = 1 then 100 else 0)
    let score := score + (if n_rows = 2 then 300 else 0)
    let score := score + (if n_rows = 3 then 700 else 0)
    let score := score + (if n_rows = 4 then 1500 else 0)
    let level := 1 + Int.tdiv score 600
    let speed := INITIAL_TIMEOUT - (level - 1) * SPEED_DECREMENT
    ⟨score, level, speed⟩
  else s

/-! ## `attach_figure_to_field` (backend.c:353-364) -/

/-- One `game->field[y][x] = 1` store.  An out-of-range store is undefined
behaviour in the C original; the model leaves the field unchanged there
(the safety theorem shows the guard never fires under the collision
precondition). -/
def writeCell (field : Field) (y x : Int) : Field :=
  if 0 ≤ y ∧ y < (ROWS_MAP : Int) ∧ 0 ≤ x ∧ x < (COLS_MAP : Int) then
    field.set y.toNat ((field.getD y.toNat []).set x.toNat 1)
  else field

def attach_figure_to_field (figure : Matrix4) (pos : FigurePos) (field : Field) : Field :=
  (List.range SIDE_OF_FIGURE_SQUARE).foldl
    (fun fld i =>
      (List.range SIDE_OF_FIGURE_SQUARE).foldl
        (fun fld2 j =>
          if figCell figure i j ≠ 0 then writeCell fld2 (pos.y + i) (pos.x + j) else fld2)
        fld)
    field

/-! ## `init_figure_position` (backend.c:235-250)

Both scanning loops accumulate `sum` across lines without resetting it and
exit as soon as `sum != 0`; the inner loop also stops adding once
`sum != 0`. -/

/-- The inner `for (j = 0; sum == 0 && j < 4; j++) sum += cell;` loop. -/
def scan_line (cell : Nat → Nat → Int) (i : Nat) (sum : Int) : Int :=
  (List.range SIDE_OF_FIGURE_SQUARE).foldl
    (fun s j => if s = 0 then s + cell i j else s) sum

/-- The outer `for (i = 0, sum = 0; sum == 0 && i < 4; i++)` loop, carried
over the list of line indices still to visit; decrements `pos` for each
line scanned while the accumulated sum stays zero. -/
def init_axis_loop (cell : Nat → Nat → Int) : List Nat → Int → Int → Int
  | [], _, pos => pos
  | i :: rest, sum, pos =>
    if sum = 0 then
      let sum2 := scan_line cell i sum
      init_axis_loop cell rest sum2 (if sum2 = 0 then pos - 1 else pos)
    else pos

def init_figure_position (figure : Matrix4) : FigurePos :=
  { x := init_axis_loop (fun i j => figCell figure j i)
           (List.range SIDE_OF_FIGURE_SQUARE) 0 FIGURESTART_X,
    y := init_axis_loop (fun i j => figCell figure i j)
           (List.range SIDE_OF_FIGURE_SQUARE) 0 FIGURESTART_Y }

/-! ## `high_score_update` (backend.c:206-229)

The persistence store (`HIGH_SCORE_FILE`) is modelled as an optional stored
integer (`none` = the file cannot be opened for reading, i.e. `fopen "r+"`
fails) plus a flag saying whether creating the file (`fopen "w"`) can
succeed. -/

structure Store where
  contents : Option Int
  writable : Bool
deriving DecidableEq, Repr

/-- Result of `high_score_update`: the updated in-memory `game->high_score`,
the updated store, and the returned error code. -/
structure HSResult where
  high_score : Int
  store : Store
  rc : Int
deriving DecidableEq, Repr

def high_score_update (score high_score : Int) (st : Store) : HSResult :=
  if high_score = 0 ∨ score > high_score then
    match st.contents with
    | some v =>
      if score > v then ⟨score, { st with contents := some score }, NO_ERROR⟩
      else ⟨v, st, NO_ERROR⟩
    | none =>
      if st.writable then ⟨high_score, { st with contents := some score }, NO_ERROR⟩
      else ⟨high_score, st, ERROR⟩
  else ⟨high_score, st, NO_ERROR⟩

/-! ## Game state and the `fsm.c` handlers -/

/-- The mutable program state the state handlers touch: `GameInfo_t`'s field
and stats, the active figure, its position, and the controller state. -/
structure GameState where
  field : Field
  figure : Matrix4
  pos : FigurePos
  stats : Stats
  state : TetrisState
deriving DecidableEq, Repr

/-- fsm.c:171-185.  `fig_pos->y++`; on collision `y--` (net: unchanged) and
go to ATTACHING; otherwise the `y--`/`y++` pair around the redraw nets to the
incremented `y` and the state goes to MOVING.  The print calls only read the
game state. -/
def on_shifting_state (g : GameState) : GameState :=
  let posDown : FigurePos := { x := g.pos.x, y := g.pos.y + 1 }
  if check_collide g.figure posDown g.field then
    { g with state := ATTACHING }
  else
    { g with pos := posDown, state := MOVING }

/-- fsm.c:191-202.  Attach, destroy finished rows, recalculate stats; then
`if (*state == ATTACHING && check_collide()) *state = SPAWN;` followed by
`if (game->level > MAX_LEVEL) *state = GAMEOVER;`. -/
def on_attaching_state (g : GameState) : GameState :=
  let field1 := attach_figure_to_field g.figure g.pos g.field
  let p := destruction_of_rows field1
  let stats2 := recalculate_stats (p.2 : Int) g.stats
  let st1 := if g.state = ATTACHING ∧ check_collide g.figure g.pos p.1 then SPAWN else g.state
  let st2 := if stats2.level > MAX_LEVEL then GAMEOVER else st1
  { g with field := p.1, stats := stats2, state := st2 }

/-- The `while (!check_collide()) fig_pos->y++;` loop of `movedown`
(fsm.c:268-274), modelled with an explicit fuel bound; `movedown_go_exits`
below shows the bound is never reached when the figure has a set cell, so
the model agrees with the unbounded C loop on every input on which the C
loop terminates. -/
def movedown_go (figure : Matrix4) (field : Field) (x : Int) : Nat → Int → Int
  | 0, y => y
  | fuel + 1, y =>
    if check_collide figure ⟨x, y⟩ field then y
    else movedown_go figure field x fuel (y + 1)

/-- fsm.c:268-274: push the figure down until it collides, then step back
one row. -/
def movedown (g : GameState) : GameState :=
  let y1 := movedown_go g.figure g.field g.pos.x (((ROWS_MAP : Int) - g.pos.y).toNat + 1) g.pos.y
  { g with pos := { x := g.pos.x, y := y1 - 1 } }

/-! ## Derived notions used to state the properties -/

/-- Line `i` (a row of `cell`, or a column via a transposed `cell`) is
all-zero on the 4x4 box. -/
def lineZero (cell : Nat → Nat → Int) (i : Nat) : Bool :=
  (List.range SIDE_OF_FIGURE_SQUARE).all fun j => cell i j == 0

/-- Number of leading all-zero lines of the 4x4 box (0 to 4). -/
def leadZeroLines (cell : Nat → Nat → Int) : Nat :=
  ((List.range SIDE_OF_FIGURE_SQUARE).takeWhile (lineZero cell)).length

/-- Number of leading all-zero rows of a figure. -/
def leadZeroRows (m : Matrix4) : Nat := leadZeroLines (figCell m)

/-- Number of leading all-zero columns of a figure. -/
def leadZeroCols (m : Matrix4) : Nat := leadZeroLines (fun i j => figCell m j i)

/-- The figure has at least one set cell (cell equal to 1) in its 4x4 box. -/
def hasSetCell (m : Matrix4) : Bool :=
  (List.range SIDE_OF_FIGURE_SQUARE).any fun i =>
    (List.range SIDE_OF_FIGURE_SQUARE).any fun j => figCell m i j == 1

/-- Well-formed playfield: 20 rows of 10 cells, every cell 0 or 1. -/
def field_wf (f : Field) : Prop :=
  f.length = ROWS_MAP ∧ (∀ r ∈ f, r.length = COLS_MAP) ∧ cells01 f

/-! ## Concrete inputs used by witnesses and counterexamples -/

/-- A fully-filled field row. -/
def fullRow : Row := List.replicate COLS_MAP 1

/-- Empty field except rows 3 and 7, which are complete. -/
def fieldRows37 : Field := ((List.replicate ROWS_MAP zeroRow).set 3 fullRow).set 7 fullRow

/-- Empty field except one settled block at row 10, column 4 (an overhang for
the O piece falling in columns 4-5). -/
def fieldOverhang : Field := (List.replicate ROWS_MAP zeroRow).set 10 (zeroRow.set 4 1)

/-- MOVING-state configuration: O piece at its spawn column, above the
overhang field. -/
def gOverhang : GameState :=
  { field := fieldOverhang, figure := figures_choice 1, pos := ⟨3, 0⟩,
    stats := ⟨0, 1, 500⟩, state := MOVING }

/-- Bottom row filled in columns 0-5 only. -/
def bottomRow6 : Row := [1, 1, 1, 1, 1, 1, 0, 0, 0, 0]

/-- Empty field except the bottom row, which lacks exactly columns 6-9. -/
def fieldBottom : Field := (List.replicate ROWS_MAP zeroRow).set 19 bottomRow6

/-- ATTACHING-state configuration: the I piece rests on the floor, completing
the bottom row once attached. -/
def gBottom : GameState :=
  { field := fieldBottom, figure := figures_choice 0, pos := ⟨6, 18⟩,
    stats := ⟨0, 1, 500⟩, state := ATTACHING }

/-- A persistence store that can neither be read nor written. -/
def brokenStore : Store := { contents := none, writable := false }

/-! ## Helper lemmas -/

/-- Characterisation of the collision flag loop as an existential over set
cells. -/
lemma check_collide_eq_true {figure : Matrix4} {pos : FigurePos} {field : Field} :
    check_collide figure pos field = true ↔
      ∃ i, i < 4 ∧ ∃ j, j < 4 ∧ figCell figure i j = 1 ∧
        (pos.x + (j : Int) < 0 ∨ pos.y + (i : Int) < 0 ∨
         pos.x + (j : Int) ≥ 10 ∨ pos.y + (i : Int) ≥ 20 ∨
         fieldCell field (pos.y + (i : Int)) (pos.x + (j : Int)) = 1) := by
  simp [check_collide, List.any_eq_true, List.mem_range, SIDE_OF_FIGURE_SQUARE,
    COLS_MAP, ROWS_MAP, Bool.or_eq_true, Bool.and_eq_true, decide_eq_true_eq, beq_iff_eq,
    or_assoc]

/-- A list of length four is a four-element literal. -/
lemma exists_len4 {α : Type} (l : List α) (h : l.length = 4) :
    ∃ a b c d, l = [a, b, c, d] := by
  cases l with
  | nil => simp at h
  | cons a t =>
    cases t with
    | nil => simp at h
    | cons b t2 =>
      cases t2 with
      | nil => simp at h
      | cons c t3 =>
        cases t3 with
        | nil => simp at h
        | cons d t4 =>
          cases t4 with
          | nil => exact ⟨a, b, c, d, rfl⟩
          | cons e t5 => simp at h

/-- Reading the element that sits right after a known prefix. -/
lemma getD_append_cons {α : Type} (pre : List α) (r : α) (rest : List α) (d : α) :
    (pre ++ r :: rest).getD pre.length d = r := by
  rw [List.getD_eq_getElem?_getD, List.getElem?_append_right (Nat.le_refl _)]
  simp

/-- Collapsing the row at the end of a known prefix. -/
lemma shift_rows_down_append {pre : List Row} {r : Row} {rest : List Row} :
    shift_rows_down pre.length (pre ++ r :: rest) = (zeroRow :: pre) ++ rest := by
  have hdrop : (pre ++ r :: rest).drop (pre.length + 1) = rest := by
    rw [show pre ++ r :: rest = (pre ++ [r]) ++ rest by simp]
    exact List.drop_left' (by simp)
  simp [shift_rows_down, List.take_left', hdrop]

/-- Invariant of the destruction loop: visiting the indices of `rest` behind
an already-visited prefix `pre` collapses exactly the finished rows of
`rest`, pushing one zero row to the top for each. -/
lemma destructionGo_spec (rest : List Row) : ∀ pre : List Row,
    destructionGo (pre ++ rest) (List.range' pre.length rest.length) =
      (List.replicate (rest.countP check_finished_row) zeroRow ++ pre ++
         rest.filter (fun r => !check_finished_row r),
       rest.countP check_finished_row) := by
  induction rest with
  | nil => intro pre; simp [destructionGo]
  | cons r rest ih =>
    intro pre
    rw [List.length_cons, List.range'_succ]
    by_cases hr : check_finished_row r
    · simp only [destructionGo, getD_append_cons, hr, if_pos, shift_rows_down_append]
      have h2 := ih (zeroRow :: pre)
      simp only [List.length_cons] at h2
      rw [h2]
      simp [hr, List.countP_cons, List.filter_cons, List.replicate_succ', List.append_assoc]
    · simp only [destructionGo, getD_append_cons, hr, if_neg, Bool.false_eq_true,
        not_false_iff]
      have h2 := ih (pre ++ [r])
      simp only [List.length_append, List.length_cons, List.length_nil] at h2
      rw [show pre ++ r :: rest = (pre ++ [r]) ++ rest by simp, h2]
      simp [hr, List.countP_cons, List.filter_cons, List.append_assoc]

/-- Reading any cell of a 0/1 matrix (including out-of-range defaults)
yields 0 or 1. -/
lemma figCell_01 {m : Matrix4} (h : cells01 m) (i j : Nat) :
    figCell m i j = 0 ∨ figCell m i j = 1 := by
  unfold figCell
  by_cases hi : i < m.length
  · rw [List.getD_eq_getElem _ _ hi]
    by_cases hj : j < m[i].length
    · rw [List.getD_eq_getElem _ _ hj]
      exact h m[i] (List.getElem_mem hi) _ (List.getElem_mem hj)
    · left
      rw [List.getD_eq_default _ _ (Nat.le_of_not_lt hj)]
  · left
    rw [List.getD_eq_default _ _ (Nat.le_of_not_lt hi)]
    simp

/-- The line-all-zero test, spelled out. -/
lemma lineZero_iff {cell : Nat → Nat → Int} {i : Nat} :
    lineZero cell i = true ↔ ∀ j, j < 4 → cell i j = 0 := by
  simp [lineZero, List.all_eq_true, List.mem_range, SIDE_OF_FIGURE_SQUARE]

/-- The inner accumulating scan of `init_figure_position` ends at zero iff
the scanned line is all zero (cells are 0 or 1). -/
lemma scan_line_eq_zero_iff {cell : Nat → Nat → Int} {i : Nat}
    (h : ∀ j, j < 4 → cell i j = 0 ∨ cell i j = 1) :
    scan_line cell i 0 = 0 ↔ lineZero cell i = true := by
  have h0 := h 0 (by norm_num)
  have h1 := h 1 (by norm_num)
  have h2 := h 2 (by norm_num)
  have h3 := h 3 (by norm_num)
  rcases h0 with h0 | h0 <;> rcases h1 with h1 | h1 <;>
    rcases h2 with h2 | h2 <;> rcases h3 with h3 | h3 <;>
    simp [scan_line, lineZero, SIDE_OF_FIGURE_SQUARE, List.range_succ, h0, h1, h2, h3]

/-- A nonzero accumulated sum stops the outer scanning loop at once. -/
lemma init_axis_loop_stuck {cell : Nat → Nat → Int} {sum : Int} (hs : sum ≠ 0)
    (idxs : List Nat) (pos : Int) : init_axis_loop cell idxs sum pos = pos := by
  cases idxs with
  | nil => rfl
  | cons i rest => simp [init_axis_loop, hs]

/-- The outer scanning loop decrements the start offset once per leading
all-zero line among the visited indices. -/
lemma init_axis_loop_spec {cell : Nat → Nat → Int}
    (h : ∀ i j, j < 4 → cell i j = 0 ∨ cell i j = 1) :
    ∀ (idxs : List Nat) (pos : Int),
      init_axis_loop cell idxs 0 pos =
        pos - ((idxs.takeWhile (lineZero cell)).length : Int) := by
  intro idxs
  induction idxs with
  | nil => intro pos; simp [init_axis_loop]
  | cons i rest ih =>
    intro pos
    by_cases hz : lineZero cell i = true
    · have hs : scan_line cell i 0 = 0 := (scan_line_eq_zero_iff (h i)).mpr hz
      simp only [init_axis_loop, if_pos rfl, hs, ih, List.takeWhile_cons, hz, if_true,
        List.length_cons]
      push_cast
      ring
    · have hs : scan_line cell i 0 ≠ 0 := fun hc =>
        hz ((scan_line_eq_zero_iff (h i)).mp hc)
      simp only [init_axis_loop, if_pos rfl, if_neg hs, init_axis_loop_stuck hs,
        List.takeWhile_cons, hz, if_false, List.length_nil]
      simp

/-- Closed form of `leadZeroLines` as nested conditionals. -/
lemma leadZeroLines_eq (cell : Nat → Nat → Int) :
    leadZeroLines cell =
      cond (lineZero cell 0)
        (cond (lineZero cell 1) (cond (lineZero cell 2) (cond (lineZero cell 3) 4 3) 2) 1)
        0 := by
  cases hb0 : lineZero cell 0 <;> cases hb1 : lineZero cell 1 <;>
    cases hb2 : lineZero cell 2 <;> cases hb3 : lineZero cell 3 <;>
    simp [leadZeroLines, SIDE_OF_FIGURE_SQUARE, List.range_succ, List.takeWhile_cons,
      hb0, hb1, hb2, hb3]

/-- When not every line is zero, `leadZeroLines` is the index of the first
nonzero line. -/
lemma leadZeroLines_first (cell : Nat → Nat → Int)
    (hne : ¬ ∀ i, i < 4 → lineZero cell i = true) :
    leadZeroLines cell < 4 ∧ lineZero cell (leadZeroLines cell) = false ∧
      ∀ r, r < leadZeroLines cell → lineZero cell r = true := by
  by_cases hb0 : lineZero cell 0 = true
  · by_cases hb1 : lineZero cell 1 = true
    · by_cases hb2 : lineZero cell 2 = true
      · by_cases hb3 : lineZero cell 3 = true
        · exact absurd (fun i hi => by interval_cases i <;> assumption) hne
        · have h3 : lineZero cell 3 = false := by simpa using hb3
          rw [leadZeroLines_eq, hb0, hb1, hb2, h3]
          simp only [cond_true, cond_false]
          refine ⟨by norm_num, h3, ?_⟩
          intro r hr
          interval_cases r <;> assumption
      · have h2 : lineZero cell 2 = false := by simpa using hb2
        rw [leadZeroLines_eq, hb0, hb1, h2]
        simp only [cond_true, cond_false]
        refine ⟨by norm_num, h2, ?_⟩
        intro r hr
        interval_cases r <;> assumption
    · have h1 : lineZero cell 1 = false := by simpa using hb1
      rw [leadZeroLines_eq, hb0, h1]
      simp only [cond_true, cond_false]
      refine ⟨by norm_num, h1, ?_⟩
      intro r hr
      interval_cases r <;> assumption
  · have h0 : lineZero cell 0 = false := by simpa using hb0
    rw [leadZeroLines_eq, h0]
    simp only [cond_true, cond_false]
    refine ⟨by norm_num, h0, ?_⟩
    intro r hr
    exact absurd hr (Nat.not_lt_zero r)

/-- A figure with a set cell collides at every depth 20 or below, because
some set cell has absolute row at least 20. -/
lemma collide_of_ge {figure : Matrix4} {field : Field} {x y : Int}
    (hset : hasSetCell figure = true) (hy : (20 : Int) ≤ y) :
    check_collide figure ⟨x, y⟩ field = true := by
  rcases List.any_eq_true.mp hset with ⟨i, hi, hrest⟩
  rcases List.any_eq_true.mp hrest with ⟨j, hj, hcell⟩
  rw [List.mem_range, SIDE_OF_FIGURE_SQUARE] at hi hj
  rw [beq_iff_eq] at hcell
  refine check_collide_eq_true.mpr ⟨i, hi, j, hj, hcell,
    Or.inr (Or.inr (Or.inr (Or.inl ?_)))⟩
  show (20 : Int) ≤ y + (i : Int)
  have : (0 : Int) ≤ (i : Int) := Int.natCast_nonneg i
  omega

/-- The descent loop returns the first colliding depth when one lies within
the fuel budget. -/
lemma movedown_go_eq {figure : Matrix4} {field : Field} {x : Int} :
    ∀ (fuel : Nat) (y : Int) (d : Nat), d < fuel →
      check_collide figure ⟨x, y + d⟩ field = true →
      (∀ e : Nat, e < d → check_collide figure ⟨x, y + e⟩ field = false) →
      movedown_go figure field x fuel y = y + d := by
  intro fuel
  induction fuel with
  | zero => intro y d hd; exact absurd hd (Nat.not_lt_zero d)
  | succ f ih =>
    intro y d hd hcol hmin
    cases d with
    | zero =>
      have hcol0 : check_collide figure ⟨x, y⟩ field = true := by simpa using hcol
      simp [movedown_go, hcol0]
    | succ d2 =>
      have h0 : check_collide figure ⟨x, y⟩ field = false := by
        simpa using hmin 0 (Nat.succ_pos d2)
      have hcol2 : check_collide figure ⟨x, (y + 1) + (d2 : Int)⟩ field = true := by
        have : (y + 1) + (d2 : Int) = y + ((d2 + 1 : Nat) : Int) := by push_cast; ring
        rw [this]
        exact hcol
      have hmin2 : ∀ e : Nat, e < d2 →
          check_collide figure ⟨x, (y + 1) + (e : Int)⟩ field = false := by
        intro e he
        have : (y + 1) + (e : Int) = y + ((e + 1 : Nat) : Int) := by push_cast; ring
        rw [this]
        exact hmin (e + 1) (by omega)
      have hrec := ih (y + 1) d2 (by omega) hcol2 hmin2
      simp only [movedown_go, h0, Bool.false_eq_true, if_false, hrec]
      push_cast
      ring

/-! ## Claim theorems -/

/-- C2 counterexample: the O piece (canonical shape index 1, unrotated) is
placed with bounding-box x offset 2, not `(10 - 4) / 2 = 3`, because the
placement loop also decrements x once per leading all-zero column. -/
theorem init_figure_position_counterexample :
    (init_figure_position (figures_choice 1)).x = 2 ∧ (2 : Int) ≠ FIGURESTART_X ∧
    FIGURESTART_X = 3 := by decide

/-- C2 (amended): after initial placement the x offset equals
`(10-4)/2 = 3` minus the number of leading all-zero columns of the 4x4 box
(so the leftmost occupied column sits at absolute column 3), and the y
offset equals 0 minus the number of leading all-zero rows, so the topmost
non-empty row (when the figure has a set cell) lies on field row 0. -/
theorem init_figure_position_spec (m : Matrix4) (h01 : cells01 m) :
    (init_figure_position m).x = FIGURESTART_X - leadZeroCols m ∧
    (init_figure_position m).y = FIGURESTART_Y - leadZeroRows m ∧
    (hasSetCell m = true →
      leadZeroRows m < 4 ∧
      lineZero (figCell m) (leadZeroRows m) = false ∧
      (∀ r, r < leadZeroRows m → lineZero (figCell m) r = true) ∧
      (init_figure_position m).y + (leadZeroRows m : Int) = 0) := by
  have hx : ∀ i j : Nat, j < 4 → figCell m j i = 0 ∨ figCell m j i = 1 :=
    fun i j _ => figCell_01 h01 j i
  have hy : ∀ i j : Nat, j < 4 → figCell m i j = 0 ∨ figCell m i j = 1 :=
    fun i j _ => figCell_01 h01 i j
  have hxe : (init_figure_position m).x = FIGURESTART_X - leadZeroCols m := by
    unfold init_figure_position leadZeroCols leadZeroLines
    exact init_axis_loop_spec hx _ _
  have hye : (init_figure_position m).y = FIGURESTART_Y - leadZeroRows m := by
    unfold init_figure_position leadZeroRows leadZeroLines
    exact init_axis_loop_spec hy _ _
  refine ⟨hxe, hye, fun hset => ?_⟩
  have hne : ¬ ∀ i, i < 4 → lineZero (figCell m) i = true := by
    intro hall
    rcases List.any_eq_true.mp hset with ⟨i, hi, hrest⟩
    rcases List.any_eq_true.mp hrest with ⟨j, hj, hcell⟩
    rw [List.mem_range] at hi hj
    have hz := lineZero_iff.mp (hall i (by simpa [SIDE_OF_FIGURE_SQUARE] using hi)) j
      (by simpa [SIDE_OF_FIGURE_SQUARE] using hj)
    rw [beq_iff_eq] at hcell
    rw [hcell] at hz
    norm_num at hz
  obtain ⟨hlt, hzero, hprev⟩ := leadZeroLines_first (figCell m) hne
  refine ⟨hlt, hzero, hprev, ?_⟩
  rw [hye]
  simp [FIGURESTART_Y]

/-- C2 witness: the amended statement instantiated at the O piece. -/
theorem init_figure_position_spec_witness :
    cells01 (figures_choice 1) ∧
    (init_figure_position (figures_choice 1)).x =
      FIGURESTART_X - leadZeroCols (figures_choice 1) ∧
    (init_figure_position (figures_choice 1)).y =
      FIGURESTART_Y - leadZeroRows (figures_choice 1) ∧
    (hasSetCell (figures_choice 1) = true →
      leadZeroRows (figures_choice 1) < 4 ∧
      lineZero (figCell (figures_choice 1)) (leadZeroRows (figures_choice 1)) = false ∧
      (∀ r, r < leadZeroRows (figures_choice 1) →
        lineZero (figCell (figures_choice 1)) r = true) ∧
      (init_figure_position (figures_choice 1)).y +
        (leadZeroRows (figures_choice 1) : Int) = 0) :=
  ⟨by unfold cells01; decide, init_figure_position_spec (figures_choice 1)
    (by unfold cells01; decide)⟩

/-- C3: on a 20-row field the row-clearing pass returns exactly the number of
finished rows (rows whose 10 cells are all 1) and yields the field with every
finished row deleted, that many all-zero rows inserted on top, and all other
rows preserved in relative order. -/
theorem destruction_of_rows_spec (field : Field) (h20 : field.length = ROWS_MAP) :
    (destruction_of_rows field).2 = field.countP check_finished_row ∧
    (destruction_of_rows field).1 =
      List.replicate (field.countP check_finished_row) zeroRow ++
        field.filter (fun r => !check_finished_row r) := by
  have h := destructionGo_spec field []
  simp only [List.nil_append, List.length_nil, List.append_nil] at h
  unfold destruction_of_rows
  rw [show List.range ROWS_MAP = List.range' 0 field.length by
        rw [h20]; exact List.range_eq_range' ROWS_MAP,
      h]
  exact ⟨rfl, rfl⟩

/-- C3 witness: with exactly rows 3 and 7 complete among 20 rows, the pass
clears 2 rows and the claimed shape equation holds. -/
theorem destruction_of_rows_spec_witness :
    fieldRows37.length = ROWS_MAP ∧
    fieldRows37.countP check_finished_row = 2 ∧
    (destruction_of_rows fieldRows37).2 = fieldRows37.countP check_finished_row ∧
    (destruction_of_rows fieldRows37).1 =
      List.replicate (fieldRows37.countP check_finished_row) zeroRow ++
        fieldRows37.filter (fun r => !check_finished_row r) :=
  ⟨by decide, by decide, destruction_of_rows_spec fieldRows37 (by decide)⟩

/-- C4: recalculating stats adds 100, 300, 700, 1500 to the score for
1, 2, 3, 4 cleared rows and changes nothing for 0 rows; whenever it updates,
level becomes `1 + score / 600` (C integer division) and speed becomes
`500 - (level - 1) * 30`; the chain 1, 2, 3, 4 from score 0 reaches score
2600 and level 5. -/
theorem recalculate_stats_spec (s : Stats) :
    recalculate_stats 0 s = s ∧
    (recalculate_stats 1 s).score = s.score + 100 ∧
    (recalculate_stats 2 s).score = s.score + 300 ∧
    (recalculate_stats 3 s).score = s.score + 700 ∧
    (recalculate_stats 4 s).score = s.score + 1500 ∧
    (∀ n : Int, n ≠ 0 →
      (recalculate_stats n s).level = 1 + Int.tdiv (recalculate_stats n s).score 600 ∧
      (recalculate_stats n s).speed = 500 - ((recalculate_stats n s).level - 1) * 30) ∧
    (s.score = 0 →
      (recalculate_stats 4 (recalculate_stats 3 (recalculate_stats 2
          (recalculate_stats 1 s)))).score = 2600 ∧
      (recalculate_stats 4 (recalculate_stats 3 (recalculate_stats 2
          (recalculate_stats 1 s)))).level = 5) := by
  obtain ⟨sc, lv, sp⟩ := s
  refine ⟨by simp [recalculate_stats], by norm_num [recalculate_stats],
    by norm_num [recalculate_stats], by norm_num [recalculate_stats],
    by norm_num [recalculate_stats], ?_, ?_⟩
  · intro n hn
    constructor <;> simp [recalculate_stats, hn, INITIAL_TIMEOUT, SPEED_DECREMENT]
  · intro hsc
    simp only at hsc
    subst hsc
    refine ⟨by norm_num [recalculate_stats], ?_⟩
    norm_num [recalculate_stats, INITIAL_TIMEOUT, SPEED_DECREMENT]
    decide

/-- C4 witness: the statement instantiated at the initial stats. -/
theorem recalculate_stats_spec_witness :
    recalculate_stats 0 (⟨0, 1, 500⟩ : Stats) = ⟨0, 1, 500⟩ ∧
    (recalculate_stats 1 (⟨0, 1, 500⟩ : Stats)).score = (0 : Int) + 100 ∧
    (recalculate_stats 2 (⟨0, 1, 500⟩ : Stats)).score = (0 : Int) + 300 ∧
    (recalculate_stats 3 (⟨0, 1, 500⟩ : Stats)).score = (0 : Int) + 700 ∧
    (recalculate_stats 4 (⟨0, 1, 500⟩ : Stats)).score = (0 : Int) + 1500 ∧
    (∀ n : Int, n ≠ 0 →
      (recalculate_stats n ⟨0, 1, 500⟩).level =
          1 + Int.tdiv (recalculate_stats n ⟨0, 1, 500⟩).score 600 ∧
      (recalculate_stats n ⟨0, 1, 500⟩).speed =
          500 - ((recalculate_stats n ⟨0, 1, 500⟩).level - 1) * 30) ∧
    ((⟨0, 1, 500⟩ : Stats).score = 0 →
      (recalculate_stats 4 (recalculate_stats 3 (recalculate_stats 2
          (recalculate_stats 1 ⟨0, 1, 500⟩)))).score = 2600 ∧
      (recalculate_stats 4 (recalculate_stats 3 (recalculate_stats 2
          (recalculate_stats 1 ⟨0, 1, 500⟩)))).level = 5) :=
  recalculate_stats_spec ⟨0, 1, 500⟩

/-- C5: the collision check returns true iff some set cell of the 4x4 box,
at absolute coordinate `(y + i, x + j)`, is out of the field bounds or lands
on a filled field cell; zero cells never contribute. -/
theorem check_collide_spec (figure : Matrix4) (pos : FigurePos) (field : Field) :
    check_collide figure pos field = true ↔
      ∃ i, i < 4 ∧ ∃ j, j < 4 ∧ figCell figure i j = 1 ∧
        (pos.x + (j : Int) < 0 ∨ pos.y + (i : Int) < 0 ∨
         pos.x + (j : Int) ≥ 10 ∨ pos.y + (i : Int) ≥ 20 ∨
         fieldCell field (pos.y + (i : Int)) (pos.x + (j : Int)) = 1) :=
  check_collide_eq_true

/-- C6: rotation maps a 4x4 matrix to the matrix with
`new[i][j] = old[j][3-i]`, and four applications are the identity. -/
theorem rotate_figure_spec (m : Matrix4) (hlen : m.length = 4)
    (hrow : ∀ r ∈ m, r.length = 4) :
    (∀ i j, i < 4 → j < 4 →
      figCell (rotate_figure m) i j = figCell m j (3 - i)) ∧
    rotate_figure (rotate_figure (rotate_figure (rotate_figure m))) = m := by
  constructor
  · intro i j hi hj
    interval_cases i <;> interval_cases j <;> rfl
  · obtain ⟨r0, r1, r2, r3, rfl⟩ := exists_len4 m hlen
    obtain ⟨a0, a1, a2, a3, h0⟩ := exists_len4 r0 (hrow r0 (by simp))
    obtain ⟨b0, b1, b2, b3, h1⟩ := exists_len4 r1 (hrow r1 (by simp))
    obtain ⟨c0, c1, c2, c3, h2⟩ := exists_len4 r2 (hrow r2 (by simp))
    obtain ⟨d0, d1, d2, d3, h3⟩ := exists_len4 r3 (hrow r3 (by simp))
    subst h0 h1 h2 h3
    rfl

/-- C6 witness: the statement instantiated at the T piece. -/
theorem rotate_figure_spec_witness :
    (figures_choice 6).length = 4 ∧
    (∀ i j, i < 4 → j < 4 →
      figCell (rotate_figure (figures_choice 6)) i j = figCell (figures_choice 6) j (3 - i)) ∧
    rotate_figure (rotate_figure (rotate_figure (rotate_figure (figures_choice 6)))) =
      figures_choice 6 := by
  refine ⟨by decide, ?_⟩
  exact rotate_figure_spec (figures_choice 6) (by decide) (by decide)

/-- C7: a SHIFTING step leaves the field and figure unchanged; when moving
down one row would collide the position is unchanged and the state becomes
ATTACHING, otherwise the y offset grows by exactly one and the state becomes
MOVING. -/
theorem on_shifting_state_spec (g : GameState) :
    (on_shifting_state g).field = g.field ∧
    (on_shifting_state g).figure = g.figure ∧
    (check_collide g.figure ⟨g.pos.x, g.pos.y + 1⟩ g.field = true →
      (on_shifting_state g).pos = g.pos ∧ (on_shifting_state g).state = ATTACHING) ∧
    (check_collide g.figure ⟨g.pos.x, g.pos.y + 1⟩ g.field = false →
      (on_shifting_state g).pos.x = g.pos.x ∧
      (on_shifting_state g).pos.y = g.pos.y + 1 ∧
      (on_shifting_state g).state = MOVING) := by
  by_cases h : check_collide g.figure ⟨g.pos.x, g.pos.y + 1⟩ g.field = true
  · simp [on_shifting_state, h]
  · simp only [Bool.not_eq_true] at h
    simp [on_shifting_state, h]

/-- C7 witness: the statement instantiated at the overhang configuration. -/
theorem on_shifting_state_spec_witness :
    (on_shifting_state gOverhang).field = gOverhang.field ∧
    (on_shifting_state gOverhang).figure = gOverhang.figure ∧
    (check_collide gOverhang.figure ⟨gOverhang.pos.x, gOverhang.pos.y + 1⟩ gOverhang.field = true →
      (on_shifting_state gOverhang).pos = gOverhang.pos ∧
      (on_shifting_state gOverhang).state = ATTACHING) ∧
    (check_collide gOverhang.figure ⟨gOverhang.pos.x, gOverhang.pos.y + 1⟩ gOverhang.field = false →
      (on_shifting_state gOverhang).pos.x = gOverhang.pos.x ∧
      (on_shifting_state gOverhang).pos.y = gOverhang.pos.y + 1 ∧
      (on_shifting_state gOverhang).state = MOVING) :=
  on_shifting_state_spec gOverhang

/-- C8 counterexample: with an overhang (a block at row 10, column 4) the O
piece dropped from the spawn position stops at y = 7, although y = 17 (which
is greater and at or above the current y = 0) is also collision-free, so the
final y is not the greatest collision-free offset. -/
theorem movedown_counterexample :
    hasSetCell gOverhang.figure = true ∧
    check_collide gOverhang.figure gOverhang.pos gOverhang.field = false ∧
    (movedown gOverhang).pos.y = 7 ∧
    check_collide gOverhang.figure ⟨gOverhang.pos.x, 17⟩ gOverhang.field = false ∧
    ¬ ((17 : Int) ≤ (movedown gOverhang).pos.y) := by decide

/-- C8 (amended): from a MOVING state whose figure has a set cell and whose
current placement is collision-free, action Down sets the y offset to one
less than the first colliding depth: the result is at or below the current
y, every position from the current y down to the result is collision-free,
and one step further down collides; x offset, figure and field are
unchanged. -/
theorem movedown_spec (g : GameState) (hset : hasSetCell g.figure = true)
    (hfree : check_collide g.figure g.pos g.field = false) :
    (movedown g).field = g.field ∧ (movedown g).figure = g.figure ∧
    (movedown g).pos.x = g.pos.x ∧
    g.pos.y ≤ (movedown g).pos.y ∧
    (∀ z : Int, g.pos.y ≤ z → z ≤ (movedown g).pos.y →
      check_collide g.figure ⟨g.pos.x, z⟩ g.field = false) ∧
    check_collide g.figure ⟨g.pos.x, (movedown g).pos.y + 1⟩ g.field = true := by
  have hfree2 : check_collide g.figure ⟨g.pos.x, g.pos.y⟩ g.field = false := hfree
  have hex : ∃ k : Nat, check_collide g.figure ⟨g.pos.x, g.pos.y + (k : Int)⟩ g.field = true := by
    refine ⟨((20 : Int) - g.pos.y).toNat, collide_of_ge hset ?_⟩
    omega
  have hdle : Nat.find hex ≤ ((20 : Int) - g.pos.y).toNat :=
    Nat.find_min' hex (collide_of_ge hset (by omega))
  have hmin : ∀ e : Nat, e < Nat.find hex →
      check_collide g.figure ⟨g.pos.x, g.pos.y + (e : Int)⟩ g.field = false := by
    intro e he
    have := Nat.find_min hex he
    simpa using this
  have hd1 : 1 ≤ Nat.find hex := by
    rcases Nat.eq_zero_or_pos (Nat.find hex) with h0 | h1
    · have := Nat.find_spec hex
      rw [h0] at this
      simp only [Nat.cast_zero, add_zero] at this
      rw [hfree2] at this
      exact absurd this (by norm_num)
    · exact h1
  have hgo : movedown_go g.figure g.field g.pos.x
      (((ROWS_MAP : Int) - g.pos.y).toNat + 1) g.pos.y = g.pos.y + Nat.find hex := by
    refine movedown_go_eq _ _ _ ?_ (Nat.find_spec hex) hmin
    have : ((ROWS_MAP : Int)) = 20 := by norm_num [ROWS_MAP]
    omega
  have hy1 : (movedown g).pos.y = g.pos.y + (Nat.find hex : Int) - 1 := by
    show movedown_go g.figure g.field g.pos.x
        (((ROWS_MAP : Int) - g.pos.y).toNat + 1) g.pos.y - 1 = _
    rw [hgo]
  refine ⟨rfl, rfl, rfl, ?_, ?_, ?_⟩
  · rw [hy1]; omega
  · intro z hz1 hz2
    rw [hy1] at hz2
    have hznn : (0 : Int) ≤ z - g.pos.y := by omega
    have hze : z = g.pos.y + ((z - g.pos.y).toNat : Int) := by
      rw [Int.toNat_of_nonneg hznn]; ring
    rw [hze]
    exact hmin _ (by omega)
  · rw [hy1]
    have : g.pos.y + (Nat.find hex : Int) - 1 + 1 = g.pos.y + (Nat.find hex : Int) := by ring
    rw [this]
    exact Nat.find_spec hex

/-- C8 witness: the amended statement instantiated at the overhang
configuration. -/
theorem movedown_spec_witness :
    hasSetCell gOverhang.figure = true ∧
    ((movedown gOverhang).field = gOverhang.field ∧
     (movedown gOverhang).figure = gOverhang.figure ∧
     (movedown gOverhang).pos.x = gOverhang.pos.x ∧
     gOverhang.pos.y ≤ (movedown gOverhang).pos.y ∧
     (∀ z : Int, gOverhang.pos.y ≤ z → z ≤ (movedown gOverhang).pos.y →
       check_collide gOverhang.figure ⟨gOverhang.pos.x, z⟩ gOverhang.field = false) ∧
     check_collide gOverhang.figure
       ⟨gOverhang.pos.x, (movedown gOverhang).pos.y + 1⟩ gOverhang.field = true) :=
  ⟨by decide, movedown_spec gOverhang (by decide) (by decide)⟩

/-- C1 counterexample: attaching the I piece so that it completes the bottom
row clears that row, after which the collision check at the unchanged figure
position fails, so the controller stays in ATTACHING even though the level
(1) does not exceed the maximum: the step ends in neither SPAWN nor
GAMEOVER. -/
theorem on_attaching_counterexample :
    gBottom.state = ATTACHING ∧
    (on_attaching_state gBottom).stats.level ≤ MAX_LEVEL ∧
    (on_attaching_state gBottom).state ≠ SPAWN ∧
    (on_attaching_state gBottom).state ≠ GAMEOVER ∧
    (on_attaching_state gBottom).state = ATTACHING := by decide

/-- C1 (amended): one controller step in state ATTACHING attaches the
figure, clears completed rows and recalculates stats, then ends in GAMEOVER
exactly when the new level exceeds the maximum level 10; in SPAWN exactly
when the level is within the cap and the collision check at the unchanged
figure position on the cleared field reports a collision; and otherwise
(level within cap, no collision) remains in ATTACHING. -/
theorem on_attaching_state_spec (g : GameState) (hatt : g.state = ATTACHING) :
    ((on_attaching_state g).state = GAMEOVER ↔
      MAX_LEVEL < (on_attaching_state g).stats.level) ∧
    ((on_attaching_state g).state = SPAWN ↔
      (on_attaching_state g).stats.level ≤ MAX_LEVEL ∧
      check_collide g.figure g.pos (on_attaching_state g).field = true) ∧
    ((on_attaching_state g).state = ATTACHING ↔
      (on_attaching_state g).stats.level ≤ MAX_LEVEL ∧
      check_collide g.figure g.pos (on_attaching_state g).field = false) := by
  simp only [on_attaching_state, hatt]
  by_cases hc : check_collide g.figure g.pos
      (destruction_of_rows (attach_figure_to_field g.figure g.pos g.field)).1 = true
  · by_cases hl : MAX_LEVEL <
        (recalculate_stats
          ((destruction_of_rows (attach_figure_to_field g.figure g.pos g.field)).2 : Int)
          g.stats).level
    · simp [hc, hl, not_le.mpr hl]
    · simp [hc, hl, not_lt.mp hl]
  · by_cases hl : MAX_LEVEL <
        (recalculate_stats
          ((destruction_of_rows (attach_figure_to_field g.figure g.pos g.field)).2 : Int)
          g.stats).level
    · simp [hc, hl, not_le.mpr hl]
    · simp [hc, hl, not_lt.mp hl, Bool.not_eq_true]

/-- C1 witness: the amended statement instantiated at the bottom-row
configuration. -/
theorem on_attaching_state_spec_witness :
    gBottom.state = ATTACHING ∧
    (((on_attaching_state gBottom).state = GAMEOVER ↔
       MAX_LEVEL < (on_attaching_state gBottom).stats.level) ∧
     ((on_attaching_state gBottom).state = SPAWN ↔
       (on_attaching_state gBottom).stats.level ≤ MAX_LEVEL ∧
       check_collide gBottom.figure gBottom.pos (on_attaching_state gBottom).field = true) ∧
     ((on_attaching_state gBottom).state = ATTACHING ↔
       (on_attaching_state gBottom).stats.level ≤ MAX_LEVEL ∧
       check_collide gBottom.figure gBottom.pos
         (on_attaching_state gBottom).field = false)) :=
  ⟨by decide, on_attaching_state_spec gBottom (by decide)⟩

/-- C9 counterexample: when the in-memory high score (100) already exceeds
the session score (50), no store access is attempted, so the call succeeds
even though the store can neither be read nor written; failure is therefore
not equivalent to the store being unreadable and unwritable. -/
theorem high_score_update_counterexample :
    brokenStore.contents = none ∧ brokenStore.writable = false ∧
    (high_score_update 50 100 brokenStore).rc = NO_ERROR ∧
    NO_ERROR ≠ ERROR := by decide

/-- C9 (amended): with no prior record and session score 100 the update
succeeds and persists 100; a later session with score 50 leaves the
persisted value at 100; the call fails exactly when an update is attempted
(in-memory record 0 or score above it) while the store can neither be read
nor written; and whenever the store held a value, the call succeeds and the
stored value never decreases. -/
theorem high_score_update_spec :
    (high_score_update 100 0 ⟨none, true⟩).rc = NO_ERROR ∧
    (high_score_update 100 0 ⟨none, true⟩).store.contents = some 100 ∧
    (high_score_update 50 0 ⟨some 100, true⟩).rc = NO_ERROR ∧
    (high_score_update 50 0 ⟨some 100, true⟩).store.contents = some 100 ∧
    (∀ (score hs : Int) (st : Store),
      (high_score_update score hs st).rc = ERROR ↔
        (hs = 0 ∨ hs < score) ∧ st.contents = none ∧ st.writable = false) ∧
    (∀ (score hs : Int) (st : Store) (v : Int), st.contents = some v →
      ∃ w, (high_score_update score hs st).store.contents = some w ∧ v ≤ w ∧
        (high_score_update score hs st).rc = NO_ERROR) := by
  refine ⟨by decide, by decide, by decide, by decide, ?_, ?_⟩
  · intro score hs st
    obtain ⟨cts, wb⟩ := st
    by_cases hcond : hs = 0 ∨ hs < score
    · cases cts with
      | some v =>
        by_cases hv : v < score <;>
          simp [high_score_update, hcond, hv, NO_ERROR, ERROR, lt_iff_lt_of_le_iff_le]
      | none =>
        cases wb <;> simp [high_score_update, hcond, NO_ERROR, ERROR]
    · have hcond' : ¬(hs = 0 ∨ score > hs) := hcond
      simp [high_score_update, hcond', NO_ERROR, ERROR]
  · intro score hs st v hv
    obtain ⟨cts, wb⟩ := st
    simp only at hv
    subst hv
    by_cases hcond : hs = 0 ∨ hs < score
    · by_cases hsc : v < score
      · exact ⟨score, by simp [high_score_update, hcond, hsc], le_of_lt hsc,
          by simp [high_score_update, hcond, hsc]⟩
      · exact ⟨v, by simp [high_score_update, hcond, hsc], le_refl v,
          by simp [high_score_update, hcond, hsc]⟩
    · exact ⟨v, by simp [high_score_update, hcond], le_refl v,
        by simp [high_score_update, hcond]⟩

/-- C9 witness: the failure characterisation instantiated at a readable
store. -/
theorem high_score_update_spec_witness :
    (high_score_update 300 200 ⟨some 100, true⟩).rc = ERROR ↔
      ((200 : Int) = 0 ∨ (200 : Int) < 300) ∧
      (⟨some 100, true⟩ : Store).contents = none ∧
      (⟨some 100, true⟩ : Store).writable = false :=
  high_score_update_spec.2.2.2.2.1 300 200 ⟨some 100, true⟩

/-- A property preserved by each step is preserved by the whole fold. -/
lemma foldl_preserve {α β : Type} {P : α → Prop} {f : α → β → α}
    (hf : ∀ a b, P a → P (f a b)) : ∀ (l : List β) (a : α), P a → P (l.foldl f a) := by
  intro l
  induction l with
  | nil => intro a ha; exact ha
  | cons b t ih => intro a ha; exact ih (f a b) (hf a b ha)

/-- A single guarded store keeps the field well-formed. -/
lemma writeCell_wf {f : Field} (hwf : field_wf f) (y x : Int) :
    field_wf (writeCell f y x) := by
  unfold writeCell
  split
  case isFalse => exact hwf
  case isTrue h =>
    obtain ⟨hlen, hrows, hcells⟩ := hwf
    obtain ⟨hy0, hy20, _, _⟩ := h
    have hy20i : y < 20 := by simpa [ROWS_MAP] using hy20
    have hyl : y.toNat < f.length := by
      rw [hlen, ROWS_MAP]
      omega
    refine ⟨by rw [List.length_set]; exact hlen, ?_, ?_⟩
    · intro r hr
      rcases List.mem_or_eq_of_mem_set hr with hmem | heq
      · exact hrows r hmem
      · rw [heq, List.length_set, List.getD_eq_getElem _ _ hyl]
        exact hrows _ (List.getElem_mem hyl)
    · intro r hr c hc
      rcases List.mem_or_eq_of_mem_set hr with hmem | heq
      · exact hcells r hmem c hc
      · rw [heq] at hc
        rcases List.mem_or_eq_of_mem_set hc with hcm | hce
        · rw [List.getD_eq_getElem _ _ hyl] at hcm
          exact hcells _ (List.getElem_mem hyl) c hcm
        · right; exact hce

/-- C10: if the collision check passes on a 0/1 figure over a well-formed
20x10 field, every cell the attachment writes has row in [0, 20) and column
in [0, 10), and the attached field is still a well-formed 20x10 grid of 0/1
cells. -/
theorem attach_figure_to_field_spec (figure : Matrix4) (pos : FigurePos) (field : Field)
    (hfig : cells01 figure) (hwf : field_wf field)
    (hcol : check_collide figure pos field = false) :
    (∀ i j : Nat, i < 4 → j < 4 → figCell figure i j ≠ 0 →
      0 ≤ pos.y + (i : Int) ∧ pos.y + (i : Int) < 20 ∧
      0 ≤ pos.x + (j : Int) ∧ pos.x + (j : Int) < 10) ∧
    field_wf (attach_figure_to_field figure pos field) := by
  constructor
  · intro i j hi hj hne
    have h1 : figCell figure i j = 1 := (figCell_01 hfig i j).resolve_left hne
    have hnot : ¬ (check_collide figure pos field = true) := by simp [hcol]
    rw [check_collide_eq_true] at hnot
    push_neg at hnot
    have hd := hnot i hi j hj h1
    exact ⟨hd.2.1, by have := hd.2.2.2.1; omega, hd.1, by have := hd.2.2.1; omega⟩
  · unfold attach_figure_to_field
    refine foldl_preserve ?_ _ _ hwf
    intro a b ha
    refine foldl_preserve ?_ _ _ ha
    intro a2 b2 ha2
    by_cases hb2 : figCell figure b b2 ≠ 0
    · rw [if_pos hb2]
      exact writeCell_wf ha2 _ _
    · rw [if_neg hb2]
      exact ha2

/-- C10 witness: the statement instantiated at the bottom-row
configuration. -/
theorem attach_figure_to_field_spec_witness :
    cells01 gBottom.figure ∧ field_wf gBottom.field ∧
    check_collide gBottom.figure gBottom.pos gBottom.field = false ∧
    ((∀ i j : Nat, i < 4 → j < 4 → figCell gBottom.figure i j ≠ 0 →
       0 ≤ gBottom.pos.y + (i : Int) ∧ gBottom.pos.y + (i : Int) < 20 ∧
       0 ≤ gBottom.pos.x + (j : Int) ∧ gBottom.pos.x + (j : Int) < 10) ∧
     field_wf (attach_figure_to_field gBottom.figure gBottom.pos gBottom.field)) :=
  ⟨by unfold cells01; decide, by unfold field_wf cells01; decide, by decide,
   attach_figure_to_field_spec gBottom.figure gBottom.pos gBottom.field
     (by unfold cells01; decide) (by unfold field_wf cells01; decide) (by decide)⟩

end Tetris
